import Mathlib

/-
  Shallow embedding of corrscope/outputs.py: FFmpeg command-line
  construction, the pipe-output process pipeline, and its shutdown paths.
-/

namespace Corrscope

/-- Model of the Python exceptions that flow through outputs.py.
`osError n` stands for an `OSError` with errno `n` that is none of the more
specific subclasses modelled here. -/
inductive PyExc
  | brokenPipeError
  | fileNotFoundError
  | osError (errno : Nat)
  | missingFFmpegError
  | typeError (msg : String)
  | valueError (msg : String)
  | timeoutExpired (timeout : Nat)
deriving DecidableEq, Repr

/-- Whether the exception is an `OSError` (including its subclasses
`BrokenPipeError` and `FileNotFoundError`), i.e. whether it is caught by
`except (BrokenPipeError, OSError)`. -/
def PyExc.isOSError : PyExc → Bool
  | PyExc.brokenPipeError => true
  | PyExc.fileNotFoundError => true
  | PyExc.osError _ => true
  | PyExc.missingFFmpegError => false
  | PyExc.typeError _ => false
  | PyExc.valueError _ => false
  | PyExc.timeoutExpired _ => false

/-! ### shlex.split / shlex.quote

Model of the Python standard library functions used by outputs.py:
`shlex.split` (POSIX mode, whitespace_split) and `shlex.quote`. -/

/-- The single-quote character. -/
def SQ : Char := Char.ofNat 39

/-- The double-quote character. -/
def DQ : Char := Char.ofNat 34

/-- The backslash character. -/
def BS : Char := Char.ofNat 92

/-- shlex whitespace: the characters that separate tokens. -/
def isShWhitespace (c : Char) : Bool :=
  c = ' ' || c = Char.ofNat 9 || c = Char.ofNat 13 || c = Char.ofNat 10

mutual

/-- Word-splitting loop of `shlex.split` in POSIX mode with
whitespace_split: `cur = some tok` holds the (reversed) characters of the
token being accumulated. -/
def shlexWords : List Char → Option (List Char) → Except String (List String)
  | [], none => Except.ok []
  | [], some tok => Except.ok [String.mk tok.reverse]
  | c :: cs, cur =>
    if isShWhitespace c then
      match cur with
      | none => shlexWords cs none
      | some tok => (shlexWords cs none).map (fun ws => String.mk tok.reverse :: ws)
    else if c = SQ then shlexSingleQuoted cs (cur.getD [])
    else if c = DQ then shlexDoubleQuoted cs (cur.getD [])
    else if c = BS then
      match cs with
      | [] => Except.error "No escaped character"
      | d :: cs2 => shlexWords cs2 (some (d :: cur.getD []))
    else shlexWords cs (some (c :: cur.getD []))

/-- Inside a single-quoted region: everything is literal until the closing
quote; end of input is an error. -/
def shlexSingleQuoted : List Char → List Char → Except String (List String)
  | [], _ => Except.error "No closing quotation"
  | c :: cs, tok =>
    if c = SQ then shlexWords cs (some tok)
    else shlexSingleQuoted cs (c :: tok)

/-- Inside a double-quoted region: backslash escapes only the double quote
and the backslash itself; end of input is an error. -/
def shlexDoubleQuoted : List Char → List Char → Except String (List String)
  | [], _ => Except.error "No closing quotation"
  | c :: cs, tok =>
    if c = DQ then shlexWords cs (some tok)
    else if c = BS then
      match cs with
      | [] => Except.error "No escaped character"
      | d :: cs2 =>
        if d = DQ || d = BS then shlexDoubleQuoted cs2 (d :: tok)
        else shlexDoubleQuoted cs2 (d :: BS :: tok)
    else shlexDoubleQuoted cs (c :: tok)

end

/-- `shlex.split`: split a string into shell words (POSIX rules), or raise
`ValueError` (modelled as the error message) on unbalanced quoting. -/
def shlexSplit (s : String) : Except String (List String) :=
  shlexWords s.toList none

/-- Characters `shlex.quote` considers safe: ASCII letters, digits,
underscore, and the characters at-sign, percent, plus, equals, colon,
comma, dot, slash, dash. -/
def isShlexSafeChar (c : Char) : Bool :=
  c.isAlphanum || c = '_' || c = '@' || c = '%' || c = '+' || c = '=' ||
    c = ':' || c = ',' || c = '.' || c = '/' || c = '-'

/-- `shlex.quote`: return a shell-escaped version of the string. -/
def shlexQuote (s : String) : String :=
  if s = "" then String.mk [SQ, SQ]
  else if s.toList.all isShlexSafeChar then s
  else
    String.mk
      ([SQ] ++
        s.toList.flatMap (fun c => if c = SQ then [SQ, DQ, SQ, DQ, SQ] else [c]) ++
        [SQ])

/-! ### Configuration data model -/

/-- Render settings read by outputs.py (`corr_cfg.render`). -/
structure RenderConfig where
  width : Nat
  height : Nat
deriving DecidableEq, Repr

/-- Modelled from the spec: the top-level configuration object consumed by
the sinks (`RenderConfig {width, height, fps}` and the optional audio
fields `{path, beginTime, endTime}`); only the fields outputs.py reads are
included. Times and fps are rationals. -/
structure Config where
  render : RenderConfig
  render_fps : ℚ
  master_audio : Option String
  begin_time : ℚ
  end_time : Option ℚ
deriving DecidableEq, Repr

/-- Python truthiness of `corr_cfg.master_audio` (an `Optional[str]`):
false for `None` and for the empty string. -/
def Config.hasMasterAudio (c : Config) : Bool :=
  match c.master_audio with
  | none => false
  | some s => s != ""

def RGB_DEPTH : Nat := 3

def PIXEL_FORMAT : String := "rgb24"

def FRAMES_TO_BUFFER : Nat := 2

def FFMPEG : String := "ffmpeg"

def FFPLAY : String := "ffplay"

/-- os.path.abspath. Path resolution against the working directory is
outside this model; it is the identity on the already-absolute paths the
spec assumes are handed in. -/
def abspath (path : String) : String := path

/-! ### FFmpeg command line generation -/

/-- The raw-video input argument groups (`ffmpeg_input_video`). -/
def ffmpeg_input_video (cfg : Config) : List String :=
  let fps := cfg.render_fps
  let width := cfg.render.width
  let height := cfg.render.height
  [s!"-f rawvideo -pixel_format {PIXEL_FORMAT} -video_size {width}x{height}",
   s!"-framerate {fps}",
   "-i -"]

/-- The audio input argument groups (`ffmpeg_input_audio`). -/
def ffmpeg_input_audio (audio_path : String) : List String :=
  ["-i", audio_path]

/-- State of `_FFmpegProcess`: the accumulated template groups and the
configuration. -/
structure FFmpegProcess where
  templates : List String
  corr_cfg : Config
deriving DecidableEq, Repr

/-- `_FFmpegProcess.__init__`: append the video input groups and, when
master audio is set, the seek group, the audio input, and (when an end
time is set) the trim group. -/
def FFmpegProcess.init (templates : List String) (corr_cfg : Config) : FFmpegProcess :=
  let t := templates ++ ffmpeg_input_video corr_cfg
  let t :=
    if corr_cfg.hasMasterAudio then
      let begin_time := corr_cfg.begin_time
      let t := t ++ [s!"-ss {begin_time}"]
      let audio_path := shlexQuote (abspath (corr_cfg.master_audio.getD ""))
      let t := t ++ ffmpeg_input_audio audio_path
      match corr_cfg.end_time with
      | some end_time =>
        let dur := end_time - begin_time
        t ++ [s!"-to {dur}"]
      | none => t
    else t
  { templates := t, corr_cfg := corr_cfg }

/-- `_FFmpegProcess.add_output`: append the output config's video template
and, when master audio is set, its audio template. -/
def FFmpegProcess.add_output (p : FFmpegProcess)
    (video_template audio_template : String) : FFmpegProcess :=
  let t := p.templates ++ [video_template]
  let t := if p.corr_cfg.hasMasterAudio then t ++ [audio_template] else t
  { p with templates := t }

/-- `_FFmpegProcess._generate_args`: shlex-split every template group and
flatten, propagating a `ValueError` from `shlex.split` as the error. -/
def FFmpegProcess.generate_args (p : FFmpegProcess) : Except String (List String) :=
  (p.templates.mapM shlexSplit).map List.flatten

/-! ### Child processes and the spawn boundary -/

/-- Model of a spawned child process handle (`subprocess.Popen`).
`stdin`/`stdout` are pipe-handle identifiers held by the parent;
`returncode` is the value `wait()` eventually returns; and
`exitDelayAfterTerm` is how many seconds the process takes to exit after
receiving `terminate()` (`none`: it never exits on its own). -/
structure Popen where
  stdin : Nat
  stdout : Nat
  returncode : Int
  exitDelayAfterTerm : Option Nat
deriving DecidableEq, Repr

/-- Outcome of asking the OS to spawn a command line. -/
inductive SpawnResult
  | ok (p : Popen)
  | fileNotFound
  | osError (errno : Nat)
deriving DecidableEq, Repr

/-- The OS spawn boundary: what `subprocess.Popen` does for each argument
list in the current environment. -/
structure SpawnEnv where
  spawn : List String → SpawnResult

/-- A bare `subprocess.Popen(args, ...)` call: a missing executable
surfaces as the generic `FileNotFoundError`. -/
def subprocessPopen (env : SpawnEnv) (args : List String) : Except PyExc Popen :=
  match env.spawn args with
  | SpawnResult.ok p => Except.ok p
  | SpawnResult.fileNotFound => Except.error PyExc.fileNotFoundError
  | SpawnResult.osError n => Except.error (PyExc.osError n)

/-- `_FFmpegProcess.popen`: generate the args, append the extra args, and
spawn; `FileNotFoundError` from the spawn is re-raised as
`MissingFFmpegError`, while a `ValueError` from `shlex.split` and other
`OSError`s propagate unchanged. -/
def FFmpegProcess.popen (p : FFmpegProcess) (extra_args : List String)
    (env : SpawnEnv) : Except PyExc Popen :=
  match p.generate_args with
  | Except.error m => Except.error (PyExc.valueError m)
  | Except.ok args =>
    match env.spawn (args ++ extra_args) with
    | SpawnResult.ok child => Except.ok child
    | SpawnResult.fileNotFound => Except.error PyExc.missingFFmpegError
    | SpawnResult.osError n => Except.error (PyExc.osError n)

/-! ### PipeOutput -/

/-- The `_Stop` sentinel returned by `write_frame` when the peer has gone
away. -/
inductive StopSignal
  | stop
deriving DecidableEq, Repr

/-- State bound by `PipeOutput.open`: the process chain and the write
target `_stream` (the first process's stdin handle). -/
structure PipeState where
  pipeline : List Popen
  stream : Nat
deriving DecidableEq, Repr

/-- `PipeOutput.open` (named `openPipes` because `open` is reserved in
Lean): reject an empty pipeline with `TypeError`, otherwise bind the chain
and the first process's stdin. -/
def PipeOutput.openPipes (pipeline : List Popen) : Except PyExc PipeState :=
  match pipeline with
  | [] => Except.error (PyExc.typeError "must provide at least one Popen argument to popens")
  | p :: _ => Except.ok { pipeline := pipeline, stream := p.stdin }

/-- Outcome of the underlying `self._stream.write(frame)` call at the OS
boundary: it either succeeds or raises some exception. -/
inductive WriteOutcome
  | success
  | raises (e : PyExc)
deriving DecidableEq, Repr

/-- `PipeOutput.write_frame`: return `None` on success, the `Stop`
sentinel when the write raised `BrokenPipeError`, and propagate every
other exception. -/
def PipeOutput.write_frame (outcome : WriteOutcome) : Except PyExc (Option StopSignal) :=
  match outcome with
  | WriteOutcome.success => Except.ok none
  | WriteOutcome.raises PyExc.brokenPipeError => Except.ok (some StopSignal.stop)
  | WriteOutcome.raises e => Except.error e

/-- The `retval |= popen.wait()` loop of `PipeOutput.close`: bitwise OR of
the exit codes of every process in the chain, in order. -/
def PipeOutput.waitAll (st : PipeState) : Int :=
  st.pipeline.foldl (fun retval popen => Int.lor retval popen.returncode) 0

/-- `PipeOutput.close`: close the stream, absorbing any
`(BrokenPipeError, OSError)` it raises (`closeOutcome` is what the
underlying `self._stream.close()` call does); then return 0 immediately
when `wait` is false, else wait for each process and OR the exit codes. -/
def PipeOutput.close (st : PipeState) (closeOutcome : Option PyExc)
    (wait : Bool) : Except PyExc Int :=
  match closeOutcome with
  | some e =>
    if e.isOSError then
      if !wait then Except.ok 0
      else Except.ok (PipeOutput.waitAll st)
    else Except.error e
  | none =>
    if !wait then Except.ok 0
    else Except.ok (PipeOutput.waitAll st)

/-- The timeout (seconds) passed to `popen.wait(1)` inside `terminate`. -/
def TERM_WAIT : Nat := 1

/-- Whether `popen.wait(timeout)` raises `TimeoutExpired` after a
`terminate()` signal: the process either never exits or takes longer than
the timeout. -/
def Popen.waitTimesOut (p : Popen) (timeout : Nat) : Bool :=
  match p.exitDelayAfterTerm with
  | none => true
  | some d => decide (timeout < d)

/-- Observable steps of `PipeOutput.terminate`. -/
inductive TermEvent
  | closedStream
  | sentTerminate (i : Nat)
  | waitedOk (i : Nat)
  | killed (i : Nat)
deriving DecidableEq, Repr

/-- The `for popen in self._pipeline` loop of `terminate`: signal each
process, wait up to `TERM_WAIT`, kill it on timeout while remembering the
`TimeoutExpired` exception, and keep going. -/
def terminateLoop : List Popen → Nat → Option PyExc → List TermEvent × Option PyExc
  | [], _, exc => ([], exc)
  | p :: rest, i, exc =>
    let timedOut := p.waitTimesOut TERM_WAIT
    let evsHere :=
      if timedOut then [TermEvent.sentTerminate i, TermEvent.killed i]
      else [TermEvent.sentTerminate i, TermEvent.waitedOk i]
    let excNext := if timedOut then some (PyExc.timeoutExpired TERM_WAIT) else exc
    let (evsRest, excFinal) := terminateLoop rest (i + 1) excNext
    (evsHere ++ evsRest, excFinal)

/-- `PipeOutput.terminate`: `self.close(wait=False)` first, then the
signal/wait/kill loop over the whole chain, re-raising the remembered
`TimeoutExpired` only at the end. -/
def PipeOutput.terminate (st : PipeState) : List TermEvent × Except PyExc Unit :=
  let (evs, exc) := terminateLoop st.pipeline 0 none
  (TermEvent.closedStream :: evs,
   match exc with
   | some e => Except.error e
   | none => Except.ok ())

/-- The shutdown call `PipeOutput.__exit__` makes. -/
inductive ShutdownAction
  | closeAction (wait : Bool)
  | terminateAction
deriving DecidableEq, Repr

/-- `PipeOutput.__exit__`: `self.close()` (wait defaults to true) when the
protected block raised nothing, `self.terminate()` otherwise. -/
def PipeOutput.exitDunder (exc_type : Option PyExc) : ShutdownAction :=
  match exc_type with
  | none => ShutdownAction.closeAction true
  | some _ => ShutdownAction.terminateAction

/-- The with-statement protocol: whether the protected block finishes
normally or raises, `__exit__` runs exactly once, receiving the raised
exception type (or `None`). The list is the sequence of shutdown calls
made for one pipeline instance. -/
def withStatementShutdown (bodyExc : Option PyExc) : List ShutdownAction :=
  [PipeOutput.exitDunder bodyExc]

/-! ### FFmpegOutput and FFplayOutput constructors -/

/-- How a standard stream of a spawned process is wired. -/
inductive StdWiring
  | pipeWire
  | inheritWire
  | handleWire (h : Nat)
deriving DecidableEq, Repr

/-- Observable steps of a sink constructor. `terminatedProc` is the
teardown vocabulary (terminate/kill/wait of an already-spawned process);
`openedPipeline n` is the final `self.open(...)` call on `n` processes. -/
inductive CtorEvent
  | spawned (name : String) (stdinW stdoutW : StdWiring)
  | spawnFailed (name : String)
  | closedStdout (name : String)
  | terminatedProc (name : String)
  | openedPipeline (n : Nat)
deriving DecidableEq, Repr

/-- Output config of the file sink (`FFmpegOutputConfig`); `path = none`
writes to stdout. -/
structure FFmpegOutputConfig where
  path : Option String
  args : String
  video_template : String
  audio_template : String
deriving DecidableEq, Repr

/-- Output config of the preview sink (`FFplayOutputConfig`). -/
structure FFplayOutputConfig where
  video_template : String
  audio_template : String
deriving DecidableEq, Repr

/-- Template accumulation of `FFmpegOutput.__init__`: global flags
`ffmpeg -y`, then `_FFmpegProcess.__init__`, `add_output`, and the
caller's raw extra args. -/
def FFmpegOutput.buildFFmpeg (corr_cfg : Config) (cfg : FFmpegOutputConfig) : FFmpegProcess :=
  let ffmpeg := FFmpegProcess.init [FFMPEG, "-y"] corr_cfg
  let ffmpeg := ffmpeg.add_output cfg.video_template cfg.audio_template
  { ffmpeg with templates := ffmpeg.templates ++ [cfg.args] }

/-- The output destination of the file sink: `-` (stdout) when no path is
configured, otherwise the absolute path. -/
def FFmpegOutput.videoPath (cfg : FFmpegOutputConfig) : String :=
  match cfg.path with
  | none => "-"
  | some p => abspath p

/-- The full encoder command of the file sink:
`_generate_args() + extra_args` as handed to the spawner. -/
def FFmpegOutput.spawnArgs (corr_cfg : Config) (cfg : FFmpegOutputConfig) :
    Except String (List String) :=
  (FFmpegOutput.buildFFmpeg corr_cfg cfg).generate_args.map
    (fun a => a ++ [FFmpegOutput.videoPath cfg])

/-- `FFmpegOutput.__init__`: build the command, spawn ffmpeg (stdin piped,
stdout inherited), and `open` the one-process pipeline. Returns the
observable constructor steps and the resulting state (or the exception). -/
def FFmpegOutput.init (corr_cfg : Config) (cfg : FFmpegOutputConfig)
    (env : SpawnEnv) : List CtorEvent × Except PyExc PipeState :=
  let ffmpeg := FFmpegOutput.buildFFmpeg corr_cfg cfg
  match ffmpeg.popen [FFmpegOutput.videoPath cfg] env with
  | Except.error e => ([CtorEvent.spawnFailed FFMPEG], Except.error e)
  | Except.ok p =>
    ([CtorEvent.spawned FFMPEG StdWiring.pipeWire StdWiring.inheritWire,
      CtorEvent.openedPipeline 1],
     PipeOutput.openPipes [p])

/-- The player command `shlex.split("ffplay -autoexit -")`. -/
def ffplayCmd : List String := (shlexSplit "ffplay -autoexit -").toOption.getD []

/-- Template accumulation of `FFplayOutput.__init__`: global flags
`ffmpeg -nostats`, then `_FFmpegProcess.__init__`, `add_output`, and the
streaming container override `-f nut`. -/
def FFplayOutput.buildFFmpeg (corr_cfg : Config) (cfg : FFplayOutputConfig) : FFmpegProcess :=
  let ffmpeg := FFmpegProcess.init [FFMPEG, "-nostats"] corr_cfg
  let ffmpeg := ffmpeg.add_output cfg.video_template cfg.audio_template
  { ffmpeg with templates := ffmpeg.templates ++ ["-f nut"] }

/-- The full encoder command of the preview sink (`extra_args = ["-"]`). -/
def FFplayOutput.spawnArgs (corr_cfg : Config) (cfg : FFplayOutputConfig) :
    Except String (List String) :=
  (FFplayOutput.buildFFmpeg corr_cfg cfg).generate_args.map (fun a => a ++ ["-"])

/-- `FFplayOutput.__init__`: spawn the encoder with stdout piped, spawn
the player with its stdin wired to the encoder's stdout, close the
parent's copy of the encoder stdout handle, and `open` the two-process
pipeline. A failure at any spawn propagates at that point. -/
def FFplayOutput.init (corr_cfg : Config) (cfg : FFplayOutputConfig)
    (env : SpawnEnv) : List CtorEvent × Except PyExc PipeState :=
  let ffmpeg := FFplayOutput.buildFFmpeg corr_cfg cfg
  match ffmpeg.popen ["-"] env with
  | Except.error e => ([CtorEvent.spawnFailed FFMPEG], Except.error e)
  | Except.ok p1 =>
    match subprocessPopen env ffplayCmd with
    | Except.error e =>
      ([CtorEvent.spawned FFMPEG StdWiring.pipeWire StdWiring.pipeWire,
        CtorEvent.spawnFailed FFPLAY],
       Except.error e)
    | Except.ok p2 =>
      ([CtorEvent.spawned FFMPEG StdWiring.pipeWire StdWiring.pipeWire,
        CtorEvent.spawned FFPLAY (StdWiring.handleWire p1.stdout) StdWiring.inheritWire,
        CtorEvent.closedStdout FFMPEG,
        CtorEvent.openedPipeline 2],
       PipeOutput.openPipes [p1, p2])

/-! ### The claimed fixed group order of the encoder command -/

/-- The audio argument groups exactly as the claim orders them: seek
before the audio input, then the trim group only when an end time is
present; empty when no master audio is configured. -/
def audioInputGroups (corr_cfg : Config) : List String :=
  if corr_cfg.hasMasterAudio then
    let begin_time := corr_cfg.begin_time
    [s!"-ss {begin_time}"]
    ++ ffmpeg_input_audio (shlexQuote (abspath (corr_cfg.master_audio.getD "")))
    ++ (match corr_cfg.end_time with
        | some end_time =>
          let dur := end_time - begin_time
          [s!"-to {dur}"]
        | none => [])
  else []

/-- The template groups in the fixed order the claim states: global flags,
raw-video input, audio groups (only with audio), video template, audio
template (only with audio), caller extra args. -/
def claimedGroupOrder (globalArgs : List String) (corr_cfg : Config)
    (video_template audio_template extra : String) : List String :=
  globalArgs
  ++ ffmpeg_input_video corr_cfg
  ++ audioInputGroups corr_cfg
  ++ [video_template]
  ++ (if corr_cfg.hasMasterAudio then [audio_template] else [])
  ++ [extra]

/-! ### Concrete fixtures used by witnesses and counterexamples -/

/-- A process that exits promptly with code 0. -/
def pZero : Popen := ⟨10, 11, 0, some 0⟩

/-- A process that exits promptly with code 3. -/
def pFail : Popen := ⟨12, 13, 3, some 0⟩

/-- A process that ignores the terminate signal and never exits. -/
def pHang : Popen := ⟨14, 15, 0, none⟩

/-- A configuration without master audio. -/
def corrNoAudio : Config := ⟨⟨640, 480⟩, 60, none, 0, none⟩

/-- A configuration with master audio and an end time. -/
def corrWithAudio : Config := ⟨⟨640, 480⟩, 60, some "/tmp/audio.wav", 0, some 5⟩

/-- The default `FFmpegOutputConfig` (stdout target). -/
def fcfgDefault : FFmpegOutputConfig :=
  ⟨none, "", "-c:v libx264 -crf 18 -preset superfast -movflags faststart",
   "-c:a aac -b:a 384k"⟩

/-- The default `FFplayOutputConfig`. -/
def pcfgDefault : FFplayOutputConfig := ⟨"-c:v copy", "-c:a copy"⟩

/-- An environment in which every spawn succeeds. -/
def envAllOk : SpawnEnv := ⟨fun _ => SpawnResult.ok pZero⟩

/-- An environment in which the ffplay binary is absent but ffmpeg
spawns fine. -/
def envFfplayMissing : SpawnEnv :=
  ⟨fun args => if args.head? = some FFPLAY then SpawnResult.fileNotFound
               else SpawnResult.ok pZero⟩

/-- An environment in which no binary can be located. -/
def envAllMissing : SpawnEnv := ⟨fun _ => SpawnResult.fileNotFound⟩

/-! ### Theorems -/

/-- The templates accumulated by `_FFmpegProcess.__init__` and
`add_output`, with one raw extra group appended, are exactly the claimed
fixed group order. -/
theorem templates_claimed (globalArgs : List String) (corr_cfg : Config)
    (vt atmpl extra : String) :
    ((FFmpegProcess.init globalArgs corr_cfg).add_output vt atmpl).templates ++ [extra]
      = claimedGroupOrder globalArgs corr_cfg vt atmpl extra := by
  cases hA : corr_cfg.hasMasterAudio with
  | false =>
    simp [FFmpegProcess.init, FFmpegProcess.add_output, claimedGroupOrder,
      audioInputGroups, hA]
  | true =>
    cases hE : corr_cfg.end_time with
    | none =>
      simp [FFmpegProcess.init, FFmpegProcess.add_output, claimedGroupOrder,
        audioInputGroups, hA, hE]
    | some et =>
      simp [FFmpegProcess.init, FFmpegProcess.add_output, claimedGroupOrder,
        audioInputGroups, hA, hE]

/-- Claim C1: for every configuration and both sink variants, the
generated encoder command is the tokenization of the groups in the fixed
claimed order — global flags, raw-video input, the audio seek/input/trim
groups exactly when audio is present (trim exactly when an end time is
present), video template, audio template exactly when audio is present,
caller extra args — followed by the output destination. -/
theorem command_groups_fixed_order (corr_cfg : Config)
    (fcfg : FFmpegOutputConfig) (pcfg : FFplayOutputConfig) :
    FFmpegOutput.spawnArgs corr_cfg fcfg
      = (FFmpegProcess.generate_args
          ⟨claimedGroupOrder [FFMPEG, "-y"] corr_cfg fcfg.video_template
            fcfg.audio_template fcfg.args, corr_cfg⟩).map
          (fun a => a ++ [FFmpegOutput.videoPath fcfg])
    ∧ FFplayOutput.spawnArgs corr_cfg pcfg
      = (FFmpegProcess.generate_args
          ⟨claimedGroupOrder [FFMPEG, "-nostats"] corr_cfg pcfg.video_template
            pcfg.audio_template "-f nut", corr_cfg⟩).map
          (fun a => a ++ ["-"]) := by
  constructor
  · have hb : FFmpegOutput.buildFFmpeg corr_cfg fcfg
        = ⟨claimedGroupOrder [FFMPEG, "-y"] corr_cfg fcfg.video_template
            fcfg.audio_template fcfg.args, corr_cfg⟩ := by
      have h := templates_claimed [FFMPEG, "-y"] corr_cfg fcfg.video_template
        fcfg.audio_template fcfg.args
      rw [show FFmpegOutput.buildFFmpeg corr_cfg fcfg
          = ⟨((FFmpegProcess.init [FFMPEG, "-y"] corr_cfg).add_output
              fcfg.video_template fcfg.audio_template).templates ++ [fcfg.args],
             corr_cfg⟩ from rfl, h]
    unfold FFmpegOutput.spawnArgs
    rw [hb]
  · have hb : FFplayOutput.buildFFmpeg corr_cfg pcfg
        = ⟨claimedGroupOrder [FFMPEG, "-nostats"] corr_cfg pcfg.video_template
            pcfg.audio_template "-f nut", corr_cfg⟩ := by
      have h := templates_claimed [FFMPEG, "-nostats"] corr_cfg pcfg.video_template
        pcfg.audio_template "-f nut"
      rw [show FFplayOutput.buildFFmpeg corr_cfg pcfg
          = ⟨((FFmpegProcess.init [FFMPEG, "-nostats"] corr_cfg).add_output
              pcfg.video_template pcfg.audio_template).templates ++ ["-f nut"],
             corr_cfg⟩ from rfl, h]
    unfold FFplayOutput.spawnArgs
    rw [hb]

/-- Claim C2: `write_frame` converts a `BrokenPipeError` from the write
into the `Stop` sentinel instead of raising, returns `None` on success,
and propagates every other write failure as an error. -/
theorem write_frame_stop_on_broken_pipe :
    PipeOutput.write_frame (WriteOutcome.raises PyExc.brokenPipeError)
      = Except.ok (some StopSignal.stop)
    ∧ PipeOutput.write_frame WriteOutcome.success = Except.ok none
    ∧ (∀ e : PyExc, e ≠ PyExc.brokenPipeError →
        PipeOutput.write_frame (WriteOutcome.raises e) = Except.error e) := by
  refine ⟨rfl, rfl, ?_⟩
  intro e he
  cases e <;> first | rfl | exact absurd rfl he

/-- Witness for C2: an `OSError` other than `BrokenPipeError` (errno 32)
propagates out of `write_frame`. -/
theorem write_frame_stop_on_broken_pipe_witness :
    PyExc.osError 32 ≠ PyExc.brokenPipeError
    ∧ PipeOutput.write_frame (WriteOutcome.raises (PyExc.osError 32))
        = Except.error (PyExc.osError 32) :=
  ⟨by decide, write_frame_stop_on_broken_pipe.2.2 (PyExc.osError 32) (by decide)⟩

/-- Claim C8: under the with-statement discipline exactly one shutdown
call runs per pipeline instance: `close(wait=true)` exactly when the body
raised nothing, `terminate()` exactly when it raised. -/
theorem scoped_shutdown_exactly_one (bodyExc : Option PyExc) :
    (withStatementShutdown bodyExc).length = 1
    ∧ (ShutdownAction.closeAction true ∈ withStatementShutdown bodyExc ↔ bodyExc = none)
    ∧ (ShutdownAction.terminateAction ∈ withStatementShutdown bodyExc ↔ bodyExc ≠ none) := by
  cases bodyExc <;> simp [withStatementShutdown, PipeOutput.exitDunder]

/-- Claim C10: `PipeOutput.open` on zero processes raises `TypeError`;
every successfully opened sink holds a nonempty chain and its write
target is the first process's stdin. -/
theorem open_rejects_empty_pipeline :
    PipeOutput.openPipes []
      = Except.error (PyExc.typeError "must provide at least one Popen argument to popens")
    ∧ ∀ (ps : List Popen) (st : PipeState), PipeOutput.openPipes ps = Except.ok st →
        ∃ p rest, ps = p :: rest ∧ st.pipeline = ps ∧ st.stream = p.stdin := by
  refine ⟨rfl, ?_⟩
  intro ps st h
  cases ps with
  | nil => simp [PipeOutput.openPipes] at h
  | cons p rest =>
    simp only [PipeOutput.openPipes, Except.ok.injEq] at h
    exact ⟨p, rest, rfl, by rw [← h], by rw [← h]⟩

/-- Witness for C10: opening a one-process pipeline binds that chain and
the process's stdin handle. -/
theorem open_rejects_empty_pipeline_witness :
    ∃ p rest, [pZero] = p :: rest
      ∧ (PipeState.mk [pZero] pZero.stdin).pipeline = [pZero]
      ∧ (PipeState.mk [pZero] pZero.stdin).stream = p.stdin :=
  open_rejects_empty_pipeline.2 [pZero] ⟨[pZero], pZero.stdin⟩ rfl

/-- Bitwise OR of naturals is zero exactly when both operands are. -/
theorem natOrEqZeroIff (m n : ℕ) : m ||| n = 0 ↔ m = 0 ∧ n = 0 := by
  constructor
  · intro h
    constructor
    · apply Nat.eq_of_testBit_eq
      intro i
      have hb := congrArg (fun x => Nat.testBit x i) h
      simp only [Nat.testBit_or, Nat.zero_testBit, Bool.or_eq_false_iff] at hb
      simp [hb.1]
    · apply Nat.eq_of_testBit_eq
      intro i
      have hb := congrArg (fun x => Nat.testBit x i) h
      simp only [Nat.testBit_or, Nat.zero_testBit, Bool.or_eq_false_iff] at hb
      simp [hb.2]
  · rintro ⟨rfl, rfl⟩
    rfl

/-- Bitwise OR of integers (Python `|`) is zero exactly when both operands
are. -/
theorem intLorEqZeroIff (a b : ℤ) : Int.lor a b = 0 ↔ a = 0 ∧ b = 0 := by
  cases a with
  | ofNat m =>
    cases b with
    | ofNat n =>
      rw [show Int.lor (Int.ofNat m) (Int.ofNat n) = Int.ofNat (m ||| n) from rfl]
      constructor
      · intro h
        have hmn := Int.ofNat.inj h
        rcases (natOrEqZeroIff m n).mp hmn with ⟨h1, h2⟩
        subst h1
        subst h2
        exact ⟨rfl, rfl⟩
      · rintro ⟨h1, h2⟩
        have hm := Int.ofNat.inj h1
        have hn := Int.ofNat.inj h2
        subst hm
        subst hn
        rfl
    | negSucc n =>
      rw [show Int.lor (Int.ofNat m) (Int.negSucc n) = Int.negSucc (Nat.ldiff n m) from rfl]
      constructor
      · intro h
        exact Int.noConfusion h
      · rintro ⟨h1, h2⟩
        exact Int.noConfusion h2
  | negSucc m =>
    cases b with
    | ofNat n =>
      rw [show Int.lor (Int.negSucc m) (Int.ofNat n) = Int.negSucc (Nat.ldiff m n) from rfl]
      constructor
      · intro h
        exact Int.noConfusion h
      · rintro ⟨h1, h2⟩
        exact Int.noConfusion h1
    | negSucc n =>
      rw [show Int.lor (Int.negSucc m) (Int.negSucc n) = Int.negSucc (m &&& n) from rfl]
      constructor
      · intro h
        exact Int.noConfusion h
      · rintro ⟨h1, h2⟩
        exact Int.noConfusion h1

/-- The OR-fold of exit codes is zero exactly when the accumulator and
every code in the list are zero. -/
theorem foldlLorEqZeroIff (l : List Popen) : ∀ a : Int,
    (l.foldl (fun retval popen => Int.lor retval popen.returncode) a = 0)
      ↔ (a = 0 ∧ ∀ p ∈ l, p.returncode = 0) := by
  induction l with
  | nil => simp
  | cons p rest ih =>
    intro a
    rw [List.foldl_cons, ih, intLorEqZeroIff]
    simp only [List.forall_mem_cons]
    tauto

/-- Claim C4: `close(wait=true)` collects every process's exit code and
returns their bitwise OR, which is 0 exactly when every process exited 0;
it is non-zero whenever any process in the chain exited non-zero. -/
theorem close_wait_true_collects_or (st : PipeState) :
    PipeOutput.close st none true = Except.ok (PipeOutput.waitAll st)
    ∧ (PipeOutput.waitAll st = 0 ↔ ∀ p ∈ st.pipeline, p.returncode = 0)
    ∧ (∀ p ∈ st.pipeline, p.returncode ≠ 0 → PipeOutput.waitAll st ≠ 0) := by
  have hiff : PipeOutput.waitAll st = 0 ↔ ∀ p ∈ st.pipeline, p.returncode = 0 := by
    unfold PipeOutput.waitAll
    rw [foldlLorEqZeroIff]
    simp
  refine ⟨rfl, hiff, ?_⟩
  intro p hp hne h
  exact hne (hiff.mp h p hp)

/-- Witness for C4: a two-process chain whose second process exits 3 has a
non-zero combined status. -/
theorem close_wait_true_collects_or_witness :
    pFail ∈ ([pZero, pFail] : List Popen)
    ∧ pFail.returncode ≠ 0
    ∧ PipeOutput.waitAll ⟨[pZero, pFail], 10⟩ ≠ 0 :=
  ⟨by decide, by decide,
   (close_wait_true_collects_or ⟨[pZero, pFail], 10⟩).2.2 pFail (by decide) (by decide)⟩

/-- Counterexample for C5 as stated: `close(wait=false)` returns the
literal status 0 — the very same value as the collected all-zero success
status of `close(wait=true)` on the same pipeline — so there is no
sentinel "unknown" status distinguishable from success. -/
theorem close_nowait_sentinel_counterexample :
    PipeOutput.close ⟨[pZero], 3⟩ none false = Except.ok 0
    ∧ PipeOutput.close ⟨[pZero], 3⟩ none true = Except.ok 0
    ∧ PipeOutput.close ⟨[pZero], 3⟩ none false
        = PipeOutput.close ⟨[pZero], 3⟩ none true := by
  exact ⟨rfl, rfl, rfl⟩

/-- Claim C5 (amended): `close(wait=false)` returns immediately with
status 0 for every pipeline — inspecting no process and collecting no exit
codes — and absorbs any `OSError` from closing the stream; the returned 0
is the same value as an all-zero collected success status, not a
distinguishable sentinel. -/
theorem close_nowait_returns_zero (st : PipeState) (e : PyExc) :
    PipeOutput.close st none false = Except.ok 0
    ∧ (e.isOSError = true → PipeOutput.close st (some e) false = Except.ok 0) := by
  refine ⟨rfl, ?_⟩
  intro he
  simp [PipeOutput.close, he]

/-- Witness for C5: on a pipeline whose sole process never exits,
`close(wait=false)` still returns 0, even when closing the stream raised
`BrokenPipeError`. -/
theorem close_nowait_returns_zero_witness :
    PyExc.brokenPipeError.isOSError = true
    ∧ PipeOutput.close ⟨[pHang], 5⟩ (some PyExc.brokenPipeError) false = Except.ok 0 :=
  ⟨rfl, (close_nowait_returns_zero ⟨[pHang], 5⟩ PyExc.brokenPipeError).2 rfl⟩

/-- Unfolding of one iteration of the terminate loop. -/
theorem terminateLoop_cons (p : Popen) (rest : List Popen) (i : Nat) (exc : Option PyExc) :
    terminateLoop (p :: rest) i exc
      = ((if p.waitTimesOut TERM_WAIT then [TermEvent.sentTerminate i, TermEvent.killed i]
          else [TermEvent.sentTerminate i, TermEvent.waitedOk i])
         ++ (terminateLoop rest (i + 1)
              (if p.waitTimesOut TERM_WAIT then some (PyExc.timeoutExpired TERM_WAIT) else exc)).1,
         (terminateLoop rest (i + 1)
            (if p.waitTimesOut TERM_WAIT then some (PyExc.timeoutExpired TERM_WAIT) else exc)).2) := rfl

/-- Every in-range position of the chain receives its terminate signal,
whatever happened before it. -/
theorem sent_mem_terminateLoop (ps : List Popen) : ∀ (i0 : Nat) (exc : Option PyExc) (j : Nat),
    j < ps.length → TermEvent.sentTerminate (i0 + j) ∈ (terminateLoop ps i0 exc).1 := by
  induction ps with
  | nil =>
    intro i0 exc j hj
    simp at hj
  | cons p rest ih =>
    intro i0 exc j hj
    rw [terminateLoop_cons]
    cases j with
    | zero =>
      apply List.mem_append_left
      cases hT : p.waitTimesOut TERM_WAIT <;> simp [hT]
    | succ j2 =>
      apply List.mem_append_right
      have hj2 : j2 < rest.length := by
        simp only [List.length_cons] at hj
        omega
      have h2 := ih (i0 + 1)
        (if p.waitTimesOut TERM_WAIT then some (PyExc.timeoutExpired TERM_WAIT) else exc) j2 hj2
      have heq : i0 + (j2 + 1) = (i0 + 1) + j2 := by omega
      rw [heq]
      exact h2

/-- Kill events emitted by the loop only concern positions at or past the
starting index. -/
theorem killed_lb_terminateLoop (ps : List Popen) : ∀ (i0 : Nat) (exc : Option PyExc) (k : Nat),
    TermEvent.killed k ∈ (terminateLoop ps i0 exc).1 → i0 ≤ k := by
  induction ps with
  | nil =>
    intro i0 exc k h
    simp [terminateLoop] at h
  | cons p rest ih =>
    intro i0 exc k h
    rw [terminateLoop_cons] at h
    rcases List.mem_append.mp h with h | h
    · cases hT : p.waitTimesOut TERM_WAIT
      · simp [hT] at h
      · simp [hT] at h
        omega
    · have := ih (i0 + 1) _ k h
      omega

/-- A process is killed by the loop exactly when its `wait(1)` times out. -/
theorem killed_iff_terminateLoop (ps : List Popen) : ∀ (i0 : Nat) (exc : Option PyExc) (j : Nat) (p : Popen),
    ps.get? j = some p →
    (TermEvent.killed (i0 + j) ∈ (terminateLoop ps i0 exc).1
      ↔ p.waitTimesOut TERM_WAIT = true) := by
  induction ps with
  | nil =>
    intro i0 exc j p hp
    simp at hp
  | cons q rest ih =>
    intro i0 exc j p hp
    rw [terminateLoop_cons]
    cases j with
    | zero =>
      have hq : p = q := by
        simp only [List.get?] at hp
        exact (Option.some.inj hp).symm
      subst hq
      constructor
      · intro h
        rcases List.mem_append.mp h with h | h
        · cases hT : p.waitTimesOut TERM_WAIT
          · simp [hT] at h
          · rfl
        · have := killed_lb_terminateLoop rest (i0 + 1) _ (i0 + 0) h
          omega
      · intro hT
        apply List.mem_append_left
        simp [hT]
    | succ j2 =>
      have hp2 : rest.get? j2 = some p := by simpa using hp
      have heq : i0 + (j2 + 1) = (i0 + 1) + j2 := by omega
      constructor
      · intro h
        rcases List.mem_append.mp h with h | h
        · cases hT : q.waitTimesOut TERM_WAIT
          · simp [hT] at h
          · simp [hT] at h
        · rw [heq] at h
          exact (ih (i0 + 1) _ j2 p hp2).mp h
      · intro hT
        apply List.mem_append_right
        rw [heq]
        exact (ih (i0 + 1) _ j2 p hp2).mpr hT

/-- The exception slot after the whole loop is empty exactly when it was
empty going in and no process timed out. -/
theorem excNone_terminateLoop (ps : List Popen) : ∀ (i0 : Nat) (exc : Option PyExc),
    ((terminateLoop ps i0 exc).2 = none)
      ↔ (exc = none ∧ ∀ p ∈ ps, p.waitTimesOut TERM_WAIT = false) := by
  induction ps with
  | nil =>
    intro i0 exc
    simp [terminateLoop]
  | cons p rest ih =>
    intro i0 exc
    rw [terminateLoop_cons]
    cases hT : p.waitTimesOut TERM_WAIT
    · simp [hT, ih, List.forall_mem_cons]
    · simp [hT, ih, List.forall_mem_cons]

/-- Claim C3: `terminate()` first closes the stream without waiting, then
signals every process in the chain in order; a process is killed exactly
when its 1-second wait timed out; and the call returns without raising
exactly when no process timed out — an exception surfaces only via the
final re-raise, after the whole chain (every in-range index) has received
its terminate signal. -/
theorem terminate_attempts_all (st : PipeState) :
    (PipeOutput.terminate st).1.head? = some TermEvent.closedStream
    ∧ (∀ i, i < st.pipeline.length →
        TermEvent.sentTerminate i ∈ (PipeOutput.terminate st).1)
    ∧ (∀ i p, st.pipeline.get? i = some p →
        (TermEvent.killed i ∈ (PipeOutput.terminate st).1
          ↔ p.waitTimesOut TERM_WAIT = true))
    ∧ ((PipeOutput.terminate st).2 = Except.ok ()
        ↔ ∀ p ∈ st.pipeline, p.waitTimesOut TERM_WAIT = false) := by
  have h1 : (PipeOutput.terminate st).1
      = TermEvent.closedStream :: (terminateLoop st.pipeline 0 none).1 := rfl
  have h2 : (PipeOutput.terminate st).2
      = (match (terminateLoop st.pipeline 0 none).2 with
         | some e => Except.error e
         | none => Except.ok ()) := rfl
  refine ⟨by rw [h1]; rfl, ?_, ?_, ?_⟩
  · intro i hi
    rw [h1]
    apply List.mem_cons_of_mem
    have := sent_mem_terminateLoop st.pipeline 0 none i hi
    simpa using this
  · intro i p hp
    have hk := killed_iff_terminateLoop st.pipeline 0 none i p hp
    rw [Nat.zero_add] at hk
    rw [h1]
    simp only [List.mem_cons]
    constructor
    · rintro (h | h)
      · exact TermEvent.noConfusion h
      · exact hk.mp h
    · intro hT
      exact Or.inr (hk.mpr hT)
  · rcases hx : (terminateLoop st.pipeline 0 none).2 with _ | e
    · have hall := (excNone_terminateLoop st.pipeline 0 none).mp hx
      rw [h2, hx]
      exact iff_of_true rfl hall.2
    · have hne : ¬ (∀ p ∈ st.pipeline, p.waitTimesOut TERM_WAIT = false) := by
        intro hall
        have hn : (terminateLoop st.pipeline 0 none).2 = none :=
          (excNone_terminateLoop st.pipeline 0 none).mpr ⟨rfl, hall⟩
        rw [hx] at hn
        exact Option.noConfusion hn
      rw [h2, hx]
      simp [hne]

/-- Witness for C3: in a chain whose first process hangs and whose second
exits promptly, the second process is still signaled, and the hung first
process is killed. -/
theorem terminate_attempts_all_witness :
    1 < (PipeState.mk [pHang, pZero] 20).pipeline.length
    ∧ TermEvent.sentTerminate 1 ∈ (PipeOutput.terminate ⟨[pHang, pZero], 20⟩).1
    ∧ ([pHang, pZero] : List Popen).get? 0 = some pHang
    ∧ (TermEvent.killed 0 ∈ (PipeOutput.terminate ⟨[pHang, pZero], 20⟩).1
        ↔ pHang.waitTimesOut TERM_WAIT = true) :=
  ⟨by decide,
   (terminate_attempts_all ⟨[pHang, pZero], 20⟩).2.1 1 (by decide),
   by decide,
   (terminate_attempts_all ⟨[pHang, pZero], 20⟩).2.2.1 0 pHang (by decide)⟩

/-- The encoder command tokens of the file sink for `corrNoAudio` and the
default config. -/
def ffmpegAllArgsNoAudio : List String :=
  ["ffmpeg", "-y", "-f", "rawvideo", "-pixel_format", "rgb24", "-video_size",
   "640x480", "-framerate", "60", "-i", "-", "-c:v", "libx264", "-crf", "18",
   "-preset", "superfast", "-movflags", "faststart"]

/-- The encoder command tokens of the preview sink for `corrNoAudio` and
the default config. -/
def ffplayAllArgsNoAudio : List String :=
  ["ffmpeg", "-nostats", "-f", "rawvideo", "-pixel_format", "rgb24",
   "-video_size", "640x480", "-framerate", "60", "-i", "-", "-c:v", "copy",
   "-f", "nut"]

/-- Counterexample for C6 as stated: with the ffplay binary absent but
ffmpeg present, the preview sink's player spawn propagates the generic
`FileNotFoundError`, not the typed `MissingFFmpegError`. -/
theorem player_spawn_generic_error_counterexample :
    (FFplayOutput.init corrNoAudio pcfgDefault envFfplayMissing).2
      = Except.error PyExc.fileNotFoundError
    ∧ PyExc.fileNotFoundError ≠ PyExc.missingFFmpegError :=
  ⟨rfl, by decide⟩

/-- Claim C6 (amended): a binary-not-found failure of the encoder spawn is
raised as the typed `MissingFFmpegError` in both sinks, but the player
spawn of the preview sink propagates the generic `FileNotFoundError`
unwrapped. -/
theorem missing_binary_error_typing :
    (∀ (corr_cfg : Config) (fcfg : FFmpegOutputConfig) (env : SpawnEnv) (args : List String),
      (FFmpegOutput.buildFFmpeg corr_cfg fcfg).generate_args = Except.ok args →
      env.spawn (args ++ [FFmpegOutput.videoPath fcfg]) = SpawnResult.fileNotFound →
      (FFmpegOutput.init corr_cfg fcfg env).2 = Except.error PyExc.missingFFmpegError)
    ∧ (∀ (corr_cfg : Config) (pcfg : FFplayOutputConfig) (env : SpawnEnv) (args : List String),
      (FFplayOutput.buildFFmpeg corr_cfg pcfg).generate_args = Except.ok args →
      env.spawn (args ++ ["-"]) = SpawnResult.fileNotFound →
      (FFplayOutput.init corr_cfg pcfg env).2 = Except.error PyExc.missingFFmpegError)
    ∧ (∀ (corr_cfg : Config) (pcfg : FFplayOutputConfig) (env : SpawnEnv)
        (args : List String) (p1 : Popen),
      (FFplayOutput.buildFFmpeg corr_cfg pcfg).generate_args = Except.ok args →
      env.spawn (args ++ ["-"]) = SpawnResult.ok p1 →
      env.spawn ffplayCmd = SpawnResult.fileNotFound →
      (FFplayOutput.init corr_cfg pcfg env).2 = Except.error PyExc.fileNotFoundError) := by
  refine ⟨?_, ?_, ?_⟩
  · intro corr_cfg fcfg env args hga hsp
    simp only [FFmpegOutput.init, FFmpegProcess.popen, hga, hsp]
  · intro corr_cfg pcfg env args hga hsp
    simp only [FFplayOutput.init, FFmpegProcess.popen, hga, hsp]
  · intro corr_cfg pcfg env args p1 hga hsp1 hsp2
    simp only [FFplayOutput.init, FFmpegProcess.popen, subprocessPopen, hga, hsp1, hsp2]

/-- Witness for C6 (amended): the file sink's encoder spawn with no
locatable binary raises `MissingFFmpegError`. -/
theorem missing_binary_error_typing_witness :
    (FFmpegOutput.buildFFmpeg corrNoAudio fcfgDefault).generate_args
      = Except.ok ffmpegAllArgsNoAudio
    ∧ envAllMissing.spawn (ffmpegAllArgsNoAudio ++ [FFmpegOutput.videoPath fcfgDefault])
        = SpawnResult.fileNotFound
    ∧ (FFmpegOutput.init corrNoAudio fcfgDefault envAllMissing).2
        = Except.error PyExc.missingFFmpegError :=
  ⟨rfl, rfl,
   missing_binary_error_typing.1 corrNoAudio fcfgDefault envAllMissing
     ffmpegAllArgsNoAudio rfl rfl⟩

/-- Claim C7 evaluated at the failing input: when the player spawn fails
after the encoder has been spawned, the constructor surfaces the launch
failure while its complete observable trace holds only the encoder spawn
and the failed player spawn — no teardown (`terminatedProc`) and no close
of the already-spawned encoder happens before the error propagates. -/
theorem preview_spawn_failure_leaves_encoder :
    FFplayOutput.init corrNoAudio pcfgDefault envFfplayMissing
      = ([CtorEvent.spawned FFMPEG StdWiring.pipeWire StdWiring.pipeWire,
          CtorEvent.spawnFailed FFPLAY],
         Except.error PyExc.fileNotFoundError) := rfl

/-- Claim C9: whenever both spawns of the preview sink succeed, the
parent's handle to the encoder's stdout is closed immediately after the
player is spawned with its stdin wired to that handle, and before the
pipeline is opened. -/
theorem preview_closes_encoder_stdout (corr_cfg : Config) (cfg : FFplayOutputConfig)
    (env : SpawnEnv) (args : List String) (p1 p2 : Popen)
    (hga : (FFplayOutput.buildFFmpeg corr_cfg cfg).generate_args = Except.ok args)
    (h1 : env.spawn (args ++ ["-"]) = SpawnResult.ok p1)
    (h2 : env.spawn ffplayCmd = SpawnResult.ok p2) :
    (FFplayOutput.init corr_cfg cfg env).1
      = [CtorEvent.spawned FFMPEG StdWiring.pipeWire StdWiring.pipeWire,
         CtorEvent.spawned FFPLAY (StdWiring.handleWire p1.stdout) StdWiring.inheritWire,
         CtorEvent.closedStdout FFMPEG,
         CtorEvent.openedPipeline 2] := by
  simp only [FFplayOutput.init, FFmpegProcess.popen, subprocessPopen, hga, h1, h2]

/-- Witness for C9: the constructor trace in an environment where both
spawns succeed. -/
theorem preview_closes_encoder_stdout_witness :
    (FFplayOutput.buildFFmpeg corrNoAudio pcfgDefault).generate_args
      = Except.ok ffplayAllArgsNoAudio
    ∧ envAllOk.spawn (ffplayAllArgsNoAudio ++ ["-"]) = SpawnResult.ok pZero
    ∧ envAllOk.spawn ffplayCmd = SpawnResult.ok pZero
    ∧ (FFplayOutput.init corrNoAudio pcfgDefault envAllOk).1
        = [CtorEvent.spawned FFMPEG StdWiring.pipeWire StdWiring.pipeWire,
           CtorEvent.spawned FFPLAY (StdWiring.handleWire pZero.stdout) StdWiring.inheritWire,
           CtorEvent.closedStdout FFMPEG,
           CtorEvent.openedPipeline 2] :=
  ⟨rfl, rfl, rfl,
   preview_closes_encoder_stdout corrNoAudio pcfgDefault envAllOk
     ffplayAllArgsNoAudio pZero pZero rfl rfl rfl⟩

end Corrscope
